import Mathlib

/-!
Shallow embedding of the zkevm-circuits prover fragments:
the SLT/SGT signed-comparator execution gadget
(zkevm-circuits/src/evm_circuit/execution/signed_comparator.rs),
the circuit-parameter bucket selector (prover/src/circuit_autogen.rs),
and the proof pipeline (prover/src/compute_proof.rs, prover/src/structs.rs).
Machine words are Nat with explicit bounds; field values assigned to cells
are Int (all assigned values are tiny relative to the BN254 scalar field,
so Int arithmetic coincides with field arithmetic on them).
-/

namespace ZkevmSpec

/-- Modelled from the spec: eth_types ToLittleEndian to_le_bytes — the 256-bit word
is decomposed into little-endian bytes, cell 0 the least-significant byte (§4.2).
This is the n-byte decomposition; the word model uses n = 32. -/
def toLeBytesN : Nat → Nat → List Nat
  | 0, _ => []
  | Nat.succ n, w => w % 256 :: toLeBytesN n (w / 256)

/-- The 32-byte little-endian decomposition used by the Word cell model. -/
def to_le_bytes (w : Nat) : List Nat := toLeBytesN 32 w

/-- Modelled from the spec: from_bytes value and expr (§4.2) — reconstruction is the
weighted sum of cell i times 256 to the i, little-endian. -/
def from_bytes_value (cells : List Nat) : Nat :=
  cells.foldr (fun b acc => b + 256 * acc) 0

theorem toLeBytesN_length (n : Nat) : ∀ w, (toLeBytesN n w).length = n := by
  induction n with
  | zero => intro w; rfl
  | succ n ih => intro w; simp [toLeBytesN, ih]

theorem toLeBytesN_lt_256 (n : Nat) : ∀ w, ∀ b ∈ toLeBytesN n w, b < 256 := by
  induction n with
  | zero => intro w b hb; simp [toLeBytesN] at hb
  | succ n ih =>
    intro w b hb
    simp only [toLeBytesN, List.mem_cons] at hb
    rcases hb with rfl | hb
    · exact Nat.mod_lt _ (by norm_num)
    · exact ih _ b hb

theorem from_bytes_toLeBytesN (n : Nat) : ∀ w, from_bytes_value (toLeBytesN n w) = w % 256 ^ n := by
  induction n with
  | zero => intro w; simp [toLeBytesN, from_bytes_value, Nat.mod_one]
  | succ n ih =>
    intro w
    simp only [toLeBytesN, from_bytes_value, List.foldr_cons]
    have h := ih (w / 256)
    simp only [from_bytes_value] at h
    rw [h, pow_succ, mul_comm (256 ^ n) 256, Nat.mod_mul]

theorem toLeBytesN_add (m n : Nat) :
    ∀ w, toLeBytesN (m + n) w = toLeBytesN m w ++ toLeBytesN n (w / 256 ^ m) := by
  induction m with
  | zero => intro w; simp [toLeBytesN]
  | succ m ih =>
    intro w
    have : m + 1 + n = (m + n) + 1 := by omega
    rw [this]
    simp only [toLeBytesN, List.cons_append, ih (w / 256)]
    congr 2
    rw [Nat.div_div_eq_div_mul, pow_succ, mul_comm (256 ^ m) 256]

theorem toLeBytesN_getD (n : Nat) :
    ∀ w i, i < n → (toLeBytesN n w).getD i 0 = w / 256 ^ i % 256 := by
  induction n with
  | zero => intro w i hi; omega
  | succ n ih =>
    intro w i hi
    match i with
    | 0 => simp [toLeBytesN]
    | Nat.succ j =>
      simp only [toLeBytesN, List.getD_cons_succ]
      rw [ih (w / 256) j (by omega), Nat.div_div_eq_div_mul, pow_succ, mul_comm (256 ^ j) 256]

theorem from_bytes_take16 (w : Nat) :
    from_bytes_value ((to_le_bytes w).take 16) = w % 2 ^ 128 := by
  have hsplit : to_le_bytes w = toLeBytesN 16 w ++ toLeBytesN 16 (w / 256 ^ 16) := by
    unfold to_le_bytes
    rw [show (32 : Nat) = 16 + 16 from rfl, toLeBytesN_add]
  have hlen : (toLeBytesN 16 w).length = 16 := toLeBytesN_length 16 w
  rw [hsplit, List.take_append_of_le_length (by rw [hlen]), List.take_of_length_le (by rw [hlen]),
    from_bytes_toLeBytesN]
  norm_num

theorem from_bytes_drop16 (w : Nat) :
    from_bytes_value ((to_le_bytes w).drop 16) = w / 2 ^ 128 % 2 ^ 128 := by
  have hsplit : to_le_bytes w = toLeBytesN 16 w ++ toLeBytesN 16 (w / 256 ^ 16) := by
    unfold to_le_bytes
    rw [show (32 : Nat) = 16 + 16 from rfl, toLeBytesN_add]
  have hlen : (toLeBytesN 16 w).length = 16 := toLeBytesN_length 16 w
  rw [hsplit, List.drop_append_of_le_length (by rw [hlen]), List.drop_of_length_le (by rw [hlen]),
    List.nil_append, from_bytes_toLeBytesN]
  norm_num

theorem byte31_getD (w : Nat) :
    (to_le_bytes w).getD 31 0 = w / 2 ^ 248 % 256 := by
  have h := toLeBytesN_getD 32 w 31 (by norm_num)
  unfold to_le_bytes
  rw [h]
  norm_num

/-- Modelled from the spec: LessThan(N) primitive gadget (§4.3) — boolean lhs < rhs as a
0/1 field value (LtGadget construct and assign feed the same pair to the borrow chain). -/
def lt_value (lhs rhs : Nat) : Int := if lhs < rhs then 1 else 0

/-- Modelled from the spec: Comparison(N) primitive gadget (§4.3) — the pair (lt, eq)
of 0/1 field values from one borrow chain. -/
def comparison_value (lhs rhs : Nat) : Int × Int :=
  (if lhs < rhs then 1 else 0, if lhs = rhs then 1 else 0)

/-- Modelled from the spec: Equality primitive gadget (§4.3) — boolean equality of two
field elements via the inverse-witness trick, as a 0/1 field value. -/
def is_equal_value (lhs rhs : Nat) : Int := if lhs = rhs then 1 else 0

/-- The select expr combinator used by the gadget: cond * t + (1 - cond) * f. -/
def select_expr (cond t f : Int) : Int := cond * t + (1 - cond) * f

/-- Numeric opcode id of SLT, modelled from eth_types OpcodeId (standard EVM: 0x12). -/
def SLT_u8 : Nat := 0x12

/-- Numeric opcode id of SGT, modelled from eth_types OpcodeId (standard EVM: 0x13). -/
def SGT_u8 : Nat := 0x13

/-- The result value the SignedComparatorGadget assigns for operands (a, b), exactly the
expression built in configure (signed_comparator.rs lines 62-116) evaluated at the witness
the assign function provides (lines 180-209): sign checks are LtGadget(byte 31, 128),
lt_lo is LtGadget on the low 16 bytes, comparison_hi is ComparisonGadget on the high
16 bytes, and the final polynomial combines them. -/
def scmpValue (aval bval : Nat) : Int :=
  let a := to_le_bytes aval
  let b := to_le_bytes bval
  let a_pos := lt_value (a.getD 31 0) 128
  let b_pos := lt_value (b.getD 31 0) 128
  let a_lt_b_lo := lt_value (from_bytes_value (a.take 16)) (from_bytes_value (b.take 16))
  let cmp_hi := comparison_value (from_bytes_value (a.drop 16)) (from_bytes_value (b.drop 16))
  let a_lt_b := select_expr cmp_hi.1 1 (cmp_hi.2 * a_lt_b_lo)
  let a_neg_b_pos := (1 - a_pos) * b_pos
  let b_neg_a_pos := (1 - b_pos) * a_pos
  a_neg_b_pos + (1 - a_neg_b_pos - b_neg_a_pos) * a_lt_b

/-- Two's-complement signed reading of a 256-bit word. -/
def toSigned (w : Nat) : Int := if w < 2 ^ 255 then (w : Int) else (w : Int) - 2 ^ 256

/-- The gadget result as a function of the opcode and the two stack operands x (first
pop, stack top) and y (second pop): for SGT the assign function swaps which rw event
plays a and which plays b (signed_comparator.rs lines 172-178). -/
def scmpAssign (opcode x y : Nat) : Int :=
  if opcode = SGT_u8 then scmpValue y x else scmpValue x y

theorem scmpValue_eq_signed (a b : Nat) (ha : a < 2 ^ 256) (hb : b < 2 ^ 256) :
    scmpValue a b = if toSigned a < toSigned b then 1 else 0 := by
  unfold scmpValue toSigned lt_value comparison_value select_expr
  simp only
  rw [from_bytes_take16, from_bytes_take16, from_bytes_drop16, from_bytes_drop16,
    byte31_getD, byte31_getD]
  split_ifs <;> omega

/-- Follows the spec words (§4.4), for the refinement comparison with the configure
expression: the result is 1 when a is negative and b non-negative, 0 when b is negative
and a non-negative, else the unsigned magnitude ordering lt_hi OR (eq_hi AND lt_lo)
computed from the 16-byte halves; the sign of an operand is determined by whether its
most-significant byte is below 128. -/
def scmpSpecResult (aval bval : Nat) : Int :=
  let aNeg := ¬ ((to_le_bytes aval).getD 31 0 < 128)
  let bNeg := ¬ ((to_le_bytes bval).getD 31 0 < 128)
  let lt_hi :=
    from_bytes_value ((to_le_bytes aval).drop 16) < from_bytes_value ((to_le_bytes bval).drop 16)
  let eq_hi :=
    from_bytes_value ((to_le_bytes aval).drop 16) = from_bytes_value ((to_le_bytes bval).drop 16)
  let lt_lo :=
    from_bytes_value ((to_le_bytes aval).take 16) < from_bytes_value ((to_le_bytes bval).take 16)
  if aNeg ∧ ¬ bNeg then 1
  else if bNeg ∧ ¬ aNeg then 0
  else if lt_hi ∨ (eq_hi ∧ lt_lo) then 1 else 0

/-- C1: for every pair of 256-bit words (a, b) interpreted as two's-complement signed
integers, the signed-comparator assignment for SLT yields 1 if a < b under the signed
interpretation and 0 otherwise, and the SGT result equals SLT with the operands
swapped. -/
theorem C1_signed_comparator_correct (a b : Nat) (ha : a < 2 ^ 256) (hb : b < 2 ^ 256) :
    scmpAssign SLT_u8 a b = (if toSigned a < toSigned b then 1 else 0) ∧
    scmpAssign SGT_u8 a b = scmpAssign SLT_u8 b a := by
  refine ⟨?_, by simp [scmpAssign, SLT_u8, SGT_u8]⟩
  rw [show scmpAssign SLT_u8 a b = scmpValue a b from by simp [scmpAssign, SLT_u8, SGT_u8]]
  exact scmpValue_eq_signed a b ha hb

/-- Witness for C1 at the concrete operand pair (1, 2). -/
theorem C1_signed_comparator_correct_witness :
    ((1 : Nat) < 2 ^ 256 ∧ (2 : Nat) < 2 ^ 256) ∧
    (scmpAssign SLT_u8 1 2 = (if toSigned 1 < toSigned 2 then 1 else 0) ∧
     scmpAssign SGT_u8 1 2 = scmpAssign SLT_u8 2 1) :=
  ⟨⟨by norm_num, by norm_num⟩, C1_signed_comparator_correct 1 2 (by norm_num) (by norm_num)⟩

/-- C3: the configure expression of the signed comparator — built from the 16-byte-half
split, LessThan(16) on the low halves, Comparison(16) on the high halves and the sign
checks on byte 31 — equals the spec description: 1 when only a is negative, 0 when only
b is negative, else the unsigned magnitude ordering lt_hi OR (eq_hi AND lt_lo). -/
theorem C3_signed_comparator_structure (a b : Nat) :
    scmpValue a b = scmpSpecResult a b := by
  unfold scmpValue scmpSpecResult lt_value comparison_value select_expr
  simp only
  split_ifs <;> omega

/-- CircuitParameters bucket: the five constants bound by one match arm of the
match_circuit_params macro (circuit_autogen.rs). -/
structure CircuitParams where
  block_gas_limit : Nat
  max_txs : Nat
  max_calldata : Nat
  max_bytecode : Nat
  min_k : Nat
deriving DecidableEq, Repr

/-- The four match arms of the match_circuit_params macro, each row as
(range low, range high, bucket), in source order. -/
def circuit_params_table : List (Nat × Nat × CircuitParams) :=
  [(0, 100000, ⟨100000, 4, 19750, 26333, 20⟩),
   (100001, 200000, ⟨200000, 9, 44750, 59666, 21⟩),
   (200001, 500000, ⟨500000, 23, 119750, 159666, 22⟩),
   (500001, 1000000, ⟨1000000, 47, 244750, 326333, 23⟩)]

/-- The match_circuit_params macro as a function: the Rust match on gas_used with the
closed ranges 0..=100000, 100001..=200000, 200001..=500000, 500001..=1000000, the
wildcard arm taking the error branch (modelled as none). -/
def match_circuit_params (gas_used : Nat) : Option CircuitParams :=
  if gas_used ≤ 100000 then some ⟨100000, 4, 19750, 26333, 20⟩
  else if gas_used ≤ 200000 then some ⟨200000, 9, 44750, 59666, 21⟩
  else if gas_used ≤ 500000 then some ⟨500000, 23, 119750, 159666, 22⟩
  else if gas_used ≤ 1000000 then some ⟨1000000, 47, 244750, 326333, 23⟩
  else none

/-- C2: every gas estimate up to 1000000 matches exactly one table row and the selector
returns that row's bucket; the eight boundary inputs evaluate to the table rows exactly;
every gas estimate above 1000000 takes the error branch, there being no default
bucket. -/
theorem C2_parameter_selector :
    (∀ g, g ≤ 1000000 →
      ∃ row, row ∈ circuit_params_table ∧ row.1 ≤ g ∧ g ≤ row.2.1 ∧
        match_circuit_params g = some row.2.2 ∧
        ∀ other ∈ circuit_params_table, other.1 ≤ g → g ≤ other.2.1 → other = row) ∧
    (match_circuit_params 0 = some ⟨100000, 4, 19750, 26333, 20⟩ ∧
     match_circuit_params 100000 = some ⟨100000, 4, 19750, 26333, 20⟩ ∧
     match_circuit_params 100001 = some ⟨200000, 9, 44750, 59666, 21⟩ ∧
     match_circuit_params 200000 = some ⟨200000, 9, 44750, 59666, 21⟩ ∧
     match_circuit_params 200001 = some ⟨500000, 23, 119750, 159666, 22⟩ ∧
     match_circuit_params 500000 = some ⟨500000, 23, 119750, 159666, 22⟩ ∧
     match_circuit_params 500001 = some ⟨1000000, 47, 244750, 326333, 23⟩ ∧
     match_circuit_params 1000000 = some ⟨1000000, 47, 244750, 326333, 23⟩) ∧
    (∀ g, 1000000 < g → match_circuit_params g = none) := by
  refine ⟨?_, by decide, ?_⟩
  · intro g hg
    by_cases h1 : g ≤ 100000
    · refine ⟨(0, 100000, ⟨100000, 4, 19750, 26333, 20⟩),
        by simp [circuit_params_table], Nat.zero_le g, h1,
        by simp [match_circuit_params, h1], ?_⟩
      intro other hmem hlo hhi
      simp only [circuit_params_table, List.mem_cons, List.not_mem_nil, or_false] at hmem
      rcases hmem with rfl | rfl | rfl | rfl
      · rfl
      all_goals simp only at hlo hhi; omega
    · by_cases h2 : g ≤ 200000
      · refine ⟨(100001, 200000, ⟨200000, 9, 44750, 59666, 21⟩),
          by simp [circuit_params_table], by omega, h2,
          by simp [match_circuit_params, h1, h2], ?_⟩
        intro other hmem hlo hhi
        simp only [circuit_params_table, List.mem_cons, List.not_mem_nil, or_false] at hmem
        rcases hmem with rfl | rfl | rfl | rfl
        · simp only at hlo hhi; omega
        · rfl
        all_goals simp only at hlo hhi; omega
      · by_cases h3 : g ≤ 500000
        · refine ⟨(200001, 500000, ⟨500000, 23, 119750, 159666, 22⟩),
            by simp [circuit_params_table], by omega, h3,
            by simp [match_circuit_params, h1, h2, h3], ?_⟩
          intro other hmem hlo hhi
          simp only [circuit_params_table, List.mem_cons, List.not_mem_nil, or_false] at hmem
          rcases hmem with rfl | rfl | rfl | rfl
          · simp only at hlo hhi; omega
          · simp only at hlo hhi; omega
          · rfl
          · simp only at hlo hhi; omega
        · refine ⟨(500001, 1000000, ⟨1000000, 47, 244750, 326333, 23⟩),
            by simp [circuit_params_table], by omega, hg,
            by simp [match_circuit_params, h1, h2, h3, hg], ?_⟩
          intro other hmem hlo hhi
          simp only [circuit_params_table, List.mem_cons, List.not_mem_nil, or_false] at hmem
          rcases hmem with rfl | rfl | rfl | rfl
          · simp only at hlo hhi; omega
          · simp only at hlo hhi; omega
          · simp only at hlo hhi; omega
          · rfl
  · intro g hg
    simp only [match_circuit_params]
    rw [if_neg (by omega), if_neg (by omega), if_neg (by omega), if_neg (by omega)]

/-- Witness for C2 at the concrete inputs 150000 (bucket exists and is unique) and
1000001 (error branch). -/
theorem C2_parameter_selector_witness :
    ((150000 : Nat) ≤ 1000000 ∧
      ∃ row, row ∈ circuit_params_table ∧ row.1 ≤ 150000 ∧ 150000 ≤ row.2.1 ∧
        match_circuit_params 150000 = some row.2.2 ∧
        ∀ other ∈ circuit_params_table, other.1 ≤ 150000 → 150000 ≤ other.2.1 → other = row) ∧
    ((1000000 : Nat) < 1000001 ∧ match_circuit_params 1000001 = none) :=
  ⟨⟨by norm_num, C2_parameter_selector.1 150000 (by norm_num)⟩,
   ⟨by norm_num, C2_parameter_selector.2.2 1000001 (by norm_num)⟩⟩

/-- Transition of one step-state counter, from constraint_builder: unchanged, moved by a
fixed delta, set to a value, or unconstrained. The Rust Default is Same. -/
inductive Transition where
  | same : Transition
  | delta : Int → Transition
  | toValue : Int → Transition
  | any : Transition
deriving DecidableEq, Repr

/-- StepStateTransition record with the counters the signed-comparator gadget
constrains; fields left out of the Rust struct literal take the Default (Same). -/
structure StepStateTransition where
  rw_counter : Transition := Transition.same
  program_counter : Transition := Transition.same
  stack_pointer : Transition := Transition.same
  gas_left : Transition := Transition.same
  memory_word_size : Transition := Transition.same
deriving DecidableEq, Repr

/-- The StepStateTransition declared by SignedComparatorGadget configure
(signed_comparator.rs lines 127-132). -/
def scmp_step_state_transition : StepStateTransition :=
  { rw_counter := Transition.delta 3
    program_counter := Transition.delta 1
    stack_pointer := Transition.delta 1 }

/-- Stack access kind declared during configure. -/
inductive StackOp where
  | pop : StackOp
  | push : StackOp
deriving DecidableEq, Repr

/-- The stack accesses declared by SignedComparatorGadget configure, in source order:
two stack_pop calls and one stack_push call (signed_comparator.rs lines 118-121). -/
def scmp_stack_ops : List StackOp := [StackOp.pop, StackOp.pop, StackOp.push]

/-- Modelled from the spec: each declared stack access contributes one read/write event
to the step, so the assigned witness advances the read/write counter by the number of
accesses (§4.4, §8). -/
def assigned_rw_delta : Int := scmp_stack_ops.length

/-- Modelled from the spec: the net stack-pointer movement of the assigned witness is
pops minus pushes — popping two words and pushing one raises the pointer by one (§4.4). -/
def assigned_sp_delta : Int :=
  (scmp_stack_ops.countP (fun op => decide (op = StackOp.pop)) : Int) -
    (scmp_stack_ops.countP (fun op => decide (op = StackOp.push)) : Int)

/-- Modelled from the spec: SLT and SGT are one-byte opcodes, so the assigned witness
advances the program counter by one (§4.4). -/
def assigned_pc_delta : Int := 1

/-- C4: the declared StepStateTransition and the assigned witness agree that the
read/write counter advances by exactly 3 (two stack reads, one stack write), the program
counter by exactly 1, and the stack pointer by exactly 1. -/
theorem C4_step_state_transition_agrees :
    scmp_step_state_transition.rw_counter = Transition.delta assigned_rw_delta ∧
    scmp_step_state_transition.program_counter = Transition.delta assigned_pc_delta ∧
    scmp_step_state_transition.stack_pointer = Transition.delta assigned_sp_delta ∧
    assigned_rw_delta = 3 ∧ assigned_pc_delta = 1 ∧ assigned_sp_delta = 1 ∧
    scmp_step_state_transition.gas_left = Transition.same ∧
    scmp_step_state_transition.memory_word_size = Transition.same := by
  refine ⟨?_, rfl, ?_, ?_, rfl, ?_, rfl, rfl⟩ <;> decide

/-- The value the IsEqualGadget named is_sgt takes: the step opcode cell compared for
equality against the numeric opcode id of SGT (signed_comparator.rs lines 53-54). -/
def is_sgt_value (opcode : Nat) : Int := is_equal_value opcode SGT_u8

/-- The two stack_pop value expressions of configure, evaluated at operand words a and b:
the first pop selects b when is_sgt else a, the second the reverse
(signed_comparator.rs lines 119-120). -/
def configure_stack_pops (opcode : Nat) (aval bval : Int) : Int × Int :=
  (select_expr (is_sgt_value opcode) bval aval,
   select_expr (is_sgt_value opcode) aval bval)

/-- The rw-index order the assign function uses: swapped exactly when the step opcode is
SGT (signed_comparator.rs lines 172-176). -/
def assign_operand_indices (opcode i0 i1 : Nat) : Nat × Nat :=
  if opcode = SGT_u8 then (i1, i0) else (i0, i1)

/-- C5: SGT reuses the SLT sub-circuit with the operand roles swapped, selected by the
boolean is_sgt equality check against SGT's numeric opcode id: is_sgt is 1 exactly for
the SGT opcode, the configure stack pops and the assign rw-index order are swapped
exactly when the opcode is SGT, and both gadget results come from the single scmpValue
sub-circuit with the operands in the selected order. -/
theorem C5_sgt_swaps_operands (opcode i0 i1 : Nat) (aval bval : Int) (x y : Nat) :
    (is_sgt_value opcode = if opcode = SGT_u8 then 1 else 0) ∧
    (configure_stack_pops opcode aval bval =
      if opcode = SGT_u8 then (bval, aval) else (aval, bval)) ∧
    (assign_operand_indices opcode i0 i1 =
      if opcode = SGT_u8 then (i1, i0) else (i0, i1)) ∧
    (scmpAssign opcode x y = if opcode = SGT_u8 then scmpValue y x else scmpValue x y) := by
  refine ⟨?_, ?_, rfl, rfl⟩
  · simp only [is_sgt_value, is_equal_value]
  · simp only [configure_stack_pops, is_sgt_value, is_equal_value, select_expr]
    split_ifs <;> simp

/-- C6: decomposing a 256-bit value into 32 range-checked little-endian byte cells and
reconstructing via the weighted sum is the identity, and the same holds for the 16-byte
halves: the low half reconstructs the low 128 bits, the high half the high 128 bits, and
together they recompose the word exactly. -/
theorem C6_word_round_trip (w : Nat) (hw : w < 2 ^ 256) :
    from_bytes_value (to_le_bytes w) = w ∧
    (to_le_bytes w).length = 32 ∧
    (∀ b ∈ to_le_bytes w, b < 256) ∧
    from_bytes_value ((to_le_bytes w).take 16) = w % 2 ^ 128 ∧
    from_bytes_value ((to_le_bytes w).drop 16) = w / 2 ^ 128 ∧
    from_bytes_value ((to_le_bytes w).take 16) +
      2 ^ 128 * from_bytes_value ((to_le_bytes w).drop 16) = w := by
  have hfull : from_bytes_value (to_le_bytes w) = w := by
    unfold to_le_bytes
    rw [from_bytes_toLeBytesN]
    exact Nat.mod_eq_of_lt (by exact lt_of_lt_of_le hw (by norm_num))
  have hdrop : from_bytes_value ((to_le_bytes w).drop 16) = w / 2 ^ 128 := by
    rw [from_bytes_drop16]
    omega
  refine ⟨hfull, toLeBytesN_length 32 w, toLeBytesN_lt_256 32 w, from_bytes_take16 w, hdrop, ?_⟩
  rw [from_bytes_take16, hdrop]
  omega

/-- Witness for C6 at a concrete word with distinct halves and the sign bit set. -/
theorem C6_word_round_trip_witness :
    (2 ^ 255 + 5 * 2 ^ 128 + 12345 : Nat) < 2 ^ 256 ∧
    (from_bytes_value (to_le_bytes (2 ^ 255 + 5 * 2 ^ 128 + 12345)) =
        2 ^ 255 + 5 * 2 ^ 128 + 12345 ∧
      (to_le_bytes (2 ^ 255 + 5 * 2 ^ 128 + 12345)).length = 32 ∧
      (∀ b ∈ to_le_bytes (2 ^ 255 + 5 * 2 ^ 128 + 12345), b < 256) ∧
      from_bytes_value ((to_le_bytes (2 ^ 255 + 5 * 2 ^ 128 + 12345)).take 16) =
        (2 ^ 255 + 5 * 2 ^ 128 + 12345) % 2 ^ 128 ∧
      from_bytes_value ((to_le_bytes (2 ^ 255 + 5 * 2 ^ 128 + 12345)).drop 16) =
        (2 ^ 255 + 5 * 2 ^ 128 + 12345) / 2 ^ 128 ∧
      from_bytes_value ((to_le_bytes (2 ^ 255 + 5 * 2 ^ 128 + 12345)).take 16) +
        2 ^ 128 * from_bytes_value ((to_le_bytes (2 ^ 255 + 5 * 2 ^ 128 + 12345)).drop 16) =
        2 ^ 255 + 5 * 2 ^ 128 + 12345) :=
  ⟨by norm_num, C6_word_round_trip (2 ^ 255 + 5 * 2 ^ 128 + 12345) (by norm_num)⟩

/-- Constant BLOCK_GAS_LIMIT of compute_proof.rs (line 29). -/
def BLOCK_GAS_LIMIT : Nat := 2000000

/-- Constant MAX_TXS of compute_proof.rs (line 30). -/
def MAX_TXS : Nat := 1

/-- Constant MAX_CALLDATA_TX of compute_proof.rs (line 31). -/
def MAX_CALLDATA_TX : Nat := 2048

/-- Constant NUM_BLINDING_ROWS of compute_proof.rs (line 32), written 7 - 1 there. -/
def NUM_BLINDING_ROWS : Nat := 7 - 1

/-- The universal parameters, reduced to the datum the pipeline reads from them: k, the
log2 row count they were generated for. -/
structure ParamsG1 where
  k : Nat
deriving DecidableEq, Repr

/-- The eth_types block fields gen_static_key sets on the default block; transactions is
the (empty, for a default block) transaction list as opaque ids. -/
structure EthBlockModel where
  number : Option Nat := none
  base_fee_per_gas : Option Nat := none
  gas_limit : Nat := 0
  parent_hash : Nat := 0
  hash : Option Nat := none
  transactions : List Nat := []
deriving DecidableEq, Repr

/-- The witness Block data compute_proof and gen_static_key thread to build_circuit:
chain id, history hashes, and the underlying eth block. -/
structure BlockWitness where
  chain_id : Nat
  history_hashes : List Nat
  eth_block : EthBlockModel
deriving DecidableEq, Repr

/-- The SuperCircuit instance build_circuit returns, with the compile-time dimensions it
is instantiated at (compute_proof.rs lines 34-50): MAX_TXS and MAX_CALLDATA_TX are the
fixed constants and bytecode_size is num_rows minus the blinding-row reserve. -/
structure SuperCircuitModel where
  block : BlockWitness
  txs : List Nat
  max_txs : Nat
  max_calldata : Nat
  bytecode_size : Nat
deriving DecidableEq, Repr

/-- build_circuit of compute_proof.rs: instantiate SuperCircuit with the fixed dimension
constants, the witness block and transactions, and 2 to the k rows minus the
blinding-row reserve as bytecode_size. -/
def build_circuit (k : Nat) (block : BlockWitness) (txs : List Nat) : SuperCircuitModel :=
  { block := block
    txs := txs
    max_txs := MAX_TXS
    max_calldata := MAX_CALLDATA_TX
    bytecode_size := 2 ^ k - NUM_BLINDING_ROWS }

/-- The dummy eth block gen_static_key builds (compute_proof.rs lines 66-71): default
block, number set to the history length 256, base fee 0, hash equal to the parent hash,
gas limit BLOCK_GAS_LIMIT, no transactions. -/
def gen_static_key_eth_block : EthBlockModel :=
  { number := some 256
    base_fee_per_gas := some 0
    gas_limit := BLOCK_GAS_LIMIT
    parent_hash := 0
    hash := some 0
    transactions := [] }

/-- The fixed witness block gen_static_key derives its circuit from: chain id 99 and 256
zero history hashes around the dummy eth block (compute_proof.rs lines 66-81). -/
def gen_static_key_witness : BlockWitness :=
  { chain_id := 99
    history_hashes := List.replicate 256 0
    eth_block := gen_static_key_eth_block }

/-- Proving-key model: keygen_vk and keygen_pk are deterministic in the universal
parameters and the circuit shape, so the key is that pair. -/
structure ProvingKeyModel where
  params_k : Nat
  circuit : SuperCircuitModel
deriving DecidableEq, Repr

/-- gen_static_key of compute_proof.rs: derive the proving key from the universal
parameters and the circuit built at params.k over the fixed dummy block with the empty
transaction list — no per-request data enters. -/
def gen_static_key (params : ParamsG1) : ProvingKeyModel :=
  { params_k := params.k
    circuit := build_circuit params.k gen_static_key_witness [] }

/-- The data the external witness provider returns for a block number: the converted
witness block and the transaction list. -/
structure FetchedWitness where
  block : BlockWitness
  txs : List Nat
deriving DecidableEq, Repr

/-- Outcome of one compute_proof run, keeping the artifacts the claims are about: the
circuit the proof is created over, the proving key used, and the state_proof bytes of
the result envelope (always left at the default, empty). -/
structure ComputeProofOutcome where
  circuit : SuperCircuitModel
  pk : ProvingKeyModel
  state_proof : List Nat
deriving DecidableEq, Repr

/-- compute_proof of compute_proof.rs as a function of the universal parameters, the
requested block number and the external witness provider: fetch the witness for the
block number, build the circuit at params.k over it, derive the proving key with
gen_static_key, create the proof, and package the result with empty state_proof. -/
def compute_proof (params : ParamsG1) (block_num : Nat)
    (provider : Nat → FetchedWitness) : ComputeProofOutcome :=
  let fetched := provider block_num
  { circuit := build_circuit params.k fetched.block fetched.txs
    pk := gen_static_key params
    state_proof := [] }

/-- A concrete fetched witness for a block whose gas estimate is 50000, used to exhibit
that compute_proof ignores the parameter-selector buckets. -/
def demo_fetched : FetchedWitness :=
  { block :=
      { chain_id := 1
        history_hashes := []
        eth_block := { gas_limit := 50000 } }
    txs := [7, 8] }

/-- Counterexample for C7: at a concrete request (k = 20, a block with gas estimate
50000) the circuit compute_proof builds has max_txs 1, while the ParameterSelector
bucket matching gas 50000 has max_txs 4 — the circuit dimensions used for proving are
not the bucket's dimensions, so the pipeline does not take them from the selector. -/
theorem C7_pipeline_counterexample :
    (compute_proof ⟨20⟩ 1 (fun _ => demo_fetched)).circuit.max_txs = 1 ∧
    (match_circuit_params 50000).map CircuitParams.max_txs = some 4 ∧
    ¬ (compute_proof ⟨20⟩ 1 (fun _ => demo_fetched)).circuit.max_txs = 4 := by
  refine ⟨rfl, by decide, by decide⟩

/-- C7 amended: compute_proof never consults the ParameterSelector; for every request
the circuit it proves over is built by build_circuit from the caller-supplied
parameters' k and the fetched witness, with the fixed dimensions max_txs = 1,
max_calldata = 2048 and bytecode_size = 2 to the k minus 6, independent of the block. -/
theorem C7_pipeline_dimensions (params : ParamsG1) (block_num : Nat)
    (provider : Nat → FetchedWitness) :
    (compute_proof params block_num provider).circuit =
      build_circuit params.k (provider block_num).block (provider block_num).txs ∧
    (compute_proof params block_num provider).circuit.max_txs = 1 ∧
    (compute_proof params block_num provider).circuit.max_calldata = 2048 ∧
    (compute_proof params block_num provider).circuit.bytecode_size =
      2 ^ params.k - 6 := by
  exact ⟨rfl, rfl, rfl, rfl⟩

/-- Field names of the Proofs struct declared in structs.rs (lines 1-5). -/
def structs_Proofs_fields : List String := ["state_proof", "evm_proof"]

/-- Field names the Proofs struct literal in compute_proof.rs (lines 131-135)
initializes. -/
def compute_proof_literal_fields : List String := ["evm_proof", "state_proof", "duration"]

/-- C8 divergence: the Proofs struct literal in compute_proof.rs initializes a duration
field that the Proofs declaration in structs.rs does not have, so the snapshot
contradicts itself; the claim (and the spec envelope of §6) matches the construction
site, and the struct declaration is missing the duration field. -/
theorem C8_envelope_fields_mismatch :
    "duration" ∈ compute_proof_literal_fields ∧
    "duration" ∉ structs_Proofs_fields ∧
    "state_proof" ∈ structs_Proofs_fields ∧
    "evm_proof" ∈ structs_Proofs_fields ∧
    (compute_proof ⟨20⟩ 1 (fun _ => demo_fetched)).state_proof = [] := by
  refine ⟨by decide, by decide, by decide, by decide, rfl⟩

/-- C9: the proving key compute_proof uses is gen_static_key of the universal parameters
alone — the same for every requested block number and every fetched witness — and
gen_static_key derives it from the fixed dummy block: chain id 99, 256 zero history
hashes, a default block with no transactions, gas limit 2000000. -/
theorem C9_static_key_independent (params : ParamsG1)
    (n1 n2 : Nat) (p1 p2 : Nat → FetchedWitness) :
    (compute_proof params n1 p1).pk = gen_static_key params ∧
    (compute_proof params n1 p1).pk = (compute_proof params n2 p2).pk ∧
    gen_static_key params =
      { params_k := params.k
        circuit := build_circuit params.k gen_static_key_witness [] } ∧
    gen_static_key_witness.chain_id = 99 ∧
    gen_static_key_witness.history_hashes = List.replicate 256 0 ∧
    gen_static_key_witness.eth_block.transactions = [] ∧
    gen_static_key_witness.eth_block.gas_limit = 2000000 := by
  exact ⟨rfl, rfl, rfl, rfl, rfl, rfl, rfl⟩

/-- One recorded read/write event, reduced to the datum assign reads from it: the stack
word returned by stack_value. -/
structure RwEntry where
  stack_value : Nat
deriving DecidableEq, Repr

/-- One execution step, reduced to the fields assign_exec_step reads: the optional
opcode and the ordered rw-event indices. -/
structure ExecStep where
  opcode : Option Nat
  rw_indices : List Nat
deriving DecidableEq, Repr

/-- The witness block, reduced to the rw-event log assign indexes into. -/
structure BlockModel where
  rws : List RwEntry
deriving DecidableEq, Repr

/-- The values assign_exec_step writes into the region for this gadget. -/
structure AssignedScmp where
  is_sgt : Int
  a_bytes : List Nat
  b_bytes : List Nat
  result : Int
deriving DecidableEq, Repr

/-- assign_exec_step of the SignedComparatorGadget (signed_comparator.rs lines 152-215),
with each Rust panic branch modelled as none: the opcode unwrap, the indexing of
rw_indices at 0 and 1, and the indexing of block.rws at the selected indices. On success
it returns the assigned values, computed from the step and block alone. -/
def assign_exec_step (block : BlockModel) (step : ExecStep) : Option AssignedScmp :=
  match step.opcode with
  | none => none
  | some opcode =>
    match step.rw_indices[0]?, step.rw_indices[1]? with
    | some i0, some i1 =>
      let idx := if opcode = SGT_u8 then (i1, i0) else (i0, i1)
      match block.rws[idx.1]?, block.rws[idx.2]? with
      | some ra, some rb =>
        some { is_sgt := is_equal_value opcode SGT_u8
               a_bytes := to_le_bytes ra.stack_value
               b_bytes := to_le_bytes rb.stack_value
               result := scmpValue ra.stack_value rb.stack_value }
      | _, _ => none
    | _, _ => none

/-- C10: when the step carries a present opcode and at least two rw-event indices, each
index valid into the block's rw log, assign_exec_step reaches none of its panic
branches: it returns an assigned witness computed from the step and block, which it only
reads. -/
theorem C10_assign_exec_step_safe (block : BlockModel) (step : ExecStep) (op : Nat)
    (hop : step.opcode = some op) (hlen : 2 ≤ step.rw_indices.length)
    (hvalid : ∀ i ∈ step.rw_indices, i < block.rws.length) :
    (assign_exec_step block step).isSome = true := by
  have h0 : 0 < step.rw_indices.length := by omega
  have h1 : 1 < step.rw_indices.length := by omega
  have hm0 : step.rw_indices[0] < block.rws.length :=
    hvalid _ (step.rw_indices.getElem_mem h0)
  have hm1 : step.rw_indices[1] < block.rws.length :=
    hvalid _ (step.rw_indices.getElem_mem h1)
  unfold assign_exec_step
  rw [hop, List.getElem?_eq_getElem h0, List.getElem?_eq_getElem h1]
  by_cases hsgt : op = SGT_u8 <;>
    simp only [hsgt, ite_true, ite_false, if_pos, if_neg, not_false_iff] <;>
    rw [List.getElem?_eq_getElem (by omega), List.getElem?_eq_getElem (by omega)] <;> rfl

/-- Witness for C10 at a concrete step (opcode SLT, rw indices 0 and 1) over a block
with a two-event rw log. -/
theorem C10_assign_exec_step_safe_witness :
    (({ opcode := some SLT_u8, rw_indices := [0, 1] } : ExecStep).opcode = some SLT_u8 ∧
      2 ≤ ({ opcode := some SLT_u8, rw_indices := [0, 1] } : ExecStep).rw_indices.length ∧
      ∀ i ∈ ({ opcode := some SLT_u8, rw_indices := [0, 1] } : ExecStep).rw_indices,
        i < ({ rws := [⟨3⟩, ⟨7⟩] } : BlockModel).rws.length) ∧
    (assign_exec_step { rws := [⟨3⟩, ⟨7⟩] }
      { opcode := some SLT_u8, rw_indices := [0, 1] }).isSome = true :=
  ⟨⟨rfl, by decide, by decide⟩,
   C10_assign_exec_step_safe { rws := [⟨3⟩, ⟨7⟩] }
     { opcode := some SLT_u8, rw_indices := [0, 1] } SLT_u8 rfl (by decide) (by decide)⟩

end ZkevmSpec
